import Mathlib

/-!
Verification of the EarReflect audio-processing core (`AudioProcessor`).

The TypeScript class `AudioProcessor` keeps a mutable state consisting of its
required options, a noise-level estimate, an `isProcessing` flag, and nullable
Web Audio nodes (low-pass filter, high-pass filter, noise gate, analyser).
We model this state shallowly:

* JS numbers become exact rationals `ℚ` (the algorithm only uses `+ - * / max`
  and comparisons, so the control flow is identical);
* a nullable node whose only relevant mutable datum is a scalar
  (`noiseGate.gain.value`, `filter.frequency.value`) becomes `Option ℚ`;
* the nullable `AnalyserNode` carries no state read by the algorithm beyond
  the energy snapshot it produces, so it becomes a `Bool` (created or not),
  and each invocation of `processNoiseReduction` takes the byte-frequency
  snapshot it would read (a `List ℕ` of unsigned magnitudes) as an input;
* `requestAnimationFrame` scheduling is modelled by applying the tick
  function once per scheduled callback; `startNoiseReduction`'s synchronous
  call of `processNoiseReduction` is the first iteration of that tick loop
  and is modelled by a separate application of the tick function.
-/

set_option autoImplicit false
set_option maxRecDepth 8192

namespace EarReflect

/-- Constructor options of `AudioProcessor` (all fields optional in TS). -/
structure AudioProcessorOptions where
  enableNoiseReduction : Option Bool := none
  noiseReductionLevel : Option ℚ := none
  lowPassFrequency : Option ℚ := none
  highPassFrequency : Option ℚ := none

/-- The `Required<AudioProcessorOptions>` record stored in `this.options`. -/
structure RequiredOptions where
  enableNoiseReduction : Bool
  noiseReductionLevel : ℚ
  lowPassFrequency : ℚ
  highPassFrequency : ℚ
deriving DecidableEq

/-- State of one `AudioProcessor` instance.  `lowPassFilter`, `highPassFilter`
and `noiseGate` hold the scalar audio-param value of the node when the node
exists (`frequency.value` for the filters, `gain.value` for the gate);
`analyser` records whether the `AnalyserNode` was created. -/
structure AudioProcessor where
  options : RequiredOptions
  noiseLevel : ℚ
  isProcessing : Bool
  lowPassFilter : Option ℚ
  highPassFilter : Option ℚ
  noiseGate : Option ℚ
  analyser : Bool
deriving DecidableEq

namespace AudioProcessor

/-- Translation of `startNoiseReduction`: guarded by
`!enableNoiseReduction || !analyser || !noiseGate`, it sets
`isProcessing = true`.  The synchronous `processNoiseReduction()` call that
follows in the source is the first iteration of the tick loop and is
modelled by `processNoiseReduction` below. -/
def startNoiseReduction (p : AudioProcessor) : AudioProcessor :=
  if p.options.enableNoiseReduction && p.analyser && p.noiseGate.isSome then
    { p with isProcessing := true }
  else
    p

/-- Translation of the constructor plus `setupAudioChain`: defaults are
applied with `??`, both filters are always created with the configured
frequencies, and when noise reduction is enabled the analyser and the noise
gate (gain `1.0`) are created and `startNoiseReduction` is invoked. -/
def construct (opts : AudioProcessorOptions) : AudioProcessor :=
  let required : RequiredOptions :=
    { enableNoiseReduction := opts.enableNoiseReduction.getD true
      noiseReductionLevel := opts.noiseReductionLevel.getD (1/2)
      lowPassFrequency := opts.lowPassFrequency.getD 8000
      highPassFrequency := opts.highPassFrequency.getD 80 }
  let p : AudioProcessor :=
    { options := required
      noiseLevel := 0
      isProcessing := false
      lowPassFilter := some required.lowPassFrequency
      highPassFilter := some required.highPassFrequency
      noiseGate := if required.enableNoiseReduction then some 1 else none
      analyser := required.enableNoiseReduction }
  if required.enableNoiseReduction then startNoiseReduction p else p

/-- Translation of one invocation of `processNoiseReduction`, with the byte
frequency data the analyser would deliver passed in as `dataArray`.  The
early return fires when `!isProcessing || !analyser || !noiseGate`; otherwise
the body computes the average magnitude, normalizes it by 255, updates the
noise-level EMA with weights 0.9/0.1, compares the normalized average with
`threshold = 0.01 + noiseReductionLevel * 0.05`, clamps the computed gain at
0.1 from below when attenuating, and smooths the gate gain with weights
0.7/0.3. -/
def processNoiseReduction (p : AudioProcessor) (dataArray : List ℕ) :
    AudioProcessor :=
  match p.noiseGate with
  | none => p
  | some currentGain =>
    if p.isProcessing && p.analyser then
      let bufferLength : ℚ := (dataArray.length : ℚ)
      let sum : ℚ := (dataArray.sum : ℚ)
      let average : ℚ := sum / bufferLength
      let normalizedAverage : ℚ := average / 255
      let noiseLevel : ℚ := p.noiseLevel * (9/10) + normalizedAverage * (1/10)
      let threshold : ℚ := 1/100 + p.options.noiseReductionLevel * (5/100)
      let gain : ℚ :=
        if normalizedAverage < threshold then
          max (1/10)
            (1 - ((threshold - normalizedAverage) / threshold) *
              p.options.noiseReductionLevel)
        else 1
      let smoothedGain : ℚ := currentGain * (7/10) + gain * (3/10)
      { p with noiseLevel := noiseLevel, noiseGate := some smoothedGain }
    else
      p

/-- Translation of `setNoiseReduction`: records the flag, then either starts
the controller (when enabling while not processing) or stops it and forces
the gate gain back to `1.0` (when disabling). -/
def setNoiseReduction (p : AudioProcessor) (enabled : Bool) : AudioProcessor :=
  let p1 : AudioProcessor :=
    { p with options := { p.options with enableNoiseReduction := enabled } }
  if enabled && !p1.isProcessing then
    startNoiseReduction p1
  else if !enabled then
    { p1 with
      isProcessing := false
      noiseGate := p1.noiseGate.map (fun _ => 1) }
  else
    p1

/-- Translation of `setNoiseReductionLevel`: throws when `level < 0 || level > 1`
(modelled as `Except.error` with the thrown message), otherwise stores the
level. -/
def setNoiseReductionLevel (p : AudioProcessor) (level : ℚ) :
    Except String AudioProcessor :=
  if level < 0 ∨ level > 1 then
    Except.error "noise reduction level must be between 0 and 1"
  else
    Except.ok
      { p with options := { p.options with noiseReductionLevel := level } }

/-- Translation of `setLowPassFrequency`: no-op when the filter node does not
exist, otherwise overwrites its frequency value. -/
def setLowPassFrequency (p : AudioProcessor) (frequency : ℚ) : AudioProcessor :=
  { p with lowPassFilter := p.lowPassFilter.map (fun _ => frequency) }

/-- Translation of `setHighPassFrequency`: no-op when the filter node does not
exist, otherwise overwrites its frequency value. -/
def setHighPassFrequency (p : AudioProcessor) (frequency : ℚ) : AudioProcessor :=
  { p with highPassFilter := p.highPassFilter.map (fun _ => frequency) }

/-- Translation of `disconnect`: sets `isProcessing = false` and detaches the
audio-graph edges of every existing node.  Edge topology lives in the
platform's audio graph, outside this state; no scalar of the modelled state
other than `isProcessing` is written — in particular the gate gain value is
left untouched. -/
def disconnect (p : AudioProcessor) : AudioProcessor :=
  { p with isProcessing := false }

end AudioProcessor

/-- One public operation on an `AudioProcessor` instance, as invocable after
construction.  A `tick` is one scheduled `processNoiseReduction` callback
carrying the energy snapshot the analyser delivers at that moment. -/
inductive Op where
  | tick (snapshot : List ℕ)
  | setNR (enabled : Bool)
  | setLevel (level : ℚ)
  | setLowPass (frequency : ℚ)
  | setHighPass (frequency : ℚ)
  | teardown
deriving DecidableEq

/-- Apply one public operation.  A `setLevel` outside `[0,1]` throws in the
source; the caller recovers and the instance state is unchanged. -/
def applyOp (p : AudioProcessor) : Op → AudioProcessor
  | Op.tick snapshot => p.processNoiseReduction snapshot
  | Op.setNR enabled => p.setNoiseReduction enabled
  | Op.setLevel level =>
    match p.setNoiseReductionLevel level with
    | Except.ok q => q
    | Except.error _ => p
  | Op.setLowPass frequency => p.setLowPassFrequency frequency
  | Op.setHighPass frequency => p.setHighPassFrequency frequency
  | Op.teardown => p.disconnect

/-- Run a sequence of public operations from a state. -/
def run (p : AudioProcessor) (ops : List Op) : AudioProcessor :=
  ops.foldl applyOp p

/-! Spec-side formulas.  The following definitions transcribe the per-tick
algorithm as the spec states it (§4.2 steps 2-6), to be compared with the
translated code above. -/

/-- Spec step 2: `normalizedAverage = mean(snapshot) / maxPossibleMagnitude`
with max magnitude 255. -/
def specNormalizedAverage (snapshot : List ℕ) : ℚ :=
  ((snapshot.sum : ℚ) / (snapshot.length : ℚ)) / 255

/-- Spec step 3: EMA update `estimate*0.9 + normalizedAverage*0.1`. -/
def specNoiseEMA (estimate nA : ℚ) : ℚ :=
  estimate * (9/10) + nA * (1/10)

/-- Spec step 4: `threshold = 0.01 + noiseReductionLevel*0.05`. -/
def specThreshold (level : ℚ) : ℚ :=
  1/100 + level * (5/100)

/-- Spec step 5: `targetGain = max(0.1, 1.0 - reduction*level)` below
threshold, `1.0` otherwise, with
`reduction = (threshold - normalizedAverage)/threshold`. -/
def specTargetGain (level nA : ℚ) : ℚ :=
  if nA < specThreshold level then
    max (1/10) (1 - ((specThreshold level - nA) / specThreshold level) * level)
  else 1

/-- Spec step 6: `GateGain = GateGain*0.7 + targetGain*0.3`. -/
def specSmoothedGain (currentGain target : ℚ) : ℚ :=
  currentGain * (7/10) + target * (3/10)

/-! Helper lemmas characterizing the translated operations. -/

namespace AudioProcessor

/-- A tick on a running processor with an existing gate performs exactly the
spec's steps 2-6. -/
lemma processNoiseReduction_run_eq (p : AudioProcessor) (g : ℚ) (s : List ℕ)
    (hg : p.noiseGate = some g) (hp : p.isProcessing = true)
    (ha : p.analyser = true) :
    p.processNoiseReduction s =
      { p with
        noiseLevel := specNoiseEMA p.noiseLevel (specNormalizedAverage s)
        noiseGate := some (specSmoothedGain g
          (specTargetGain p.options.noiseReductionLevel
            (specNormalizedAverage s))) } := by
  unfold processNoiseReduction
  rw [hg]
  simp only [hp, ha, Bool.and_self, if_true]
  simp only [specNoiseEMA, specNormalizedAverage, specSmoothedGain,
    specTargetGain, specThreshold]

/-- A tick on a stopped processor is the identity. -/
lemma processNoiseReduction_stopped (p : AudioProcessor) (s : List ℕ)
    (hp : p.isProcessing = false) :
    p.processNoiseReduction s = p := by
  unfold processNoiseReduction
  cases p.noiseGate <;> simp [hp]

/-- A tick on a processor without a gate node is the identity. -/
lemma processNoiseReduction_no_gate (p : AudioProcessor) (s : List ℕ)
    (hg : p.noiseGate = none) :
    p.processNoiseReduction s = p := by
  unfold processNoiseReduction
  rw [hg]

/-- A tick never changes the options record. -/
lemma processNoiseReduction_options (p : AudioProcessor) (s : List ℕ) :
    (p.processNoiseReduction s).options = p.options := by
  unfold processNoiseReduction
  cases p.noiseGate
  · rfl
  · dsimp only
    split <;> rfl

/-- A tick never changes the `isProcessing` flag. -/
lemma processNoiseReduction_isProcessing (p : AudioProcessor) (s : List ℕ) :
    (p.processNoiseReduction s).isProcessing = p.isProcessing := by
  unfold processNoiseReduction
  cases p.noiseGate
  · rfl
  · dsimp only
    split <;> rfl

/-- A tick never changes the analyser. -/
lemma processNoiseReduction_analyser (p : AudioProcessor) (s : List ℕ) :
    (p.processNoiseReduction s).analyser = p.analyser := by
  unfold processNoiseReduction
  cases p.noiseGate
  · rfl
  · dsimp only
    split <;> rfl

end AudioProcessor

/-! Numeric bounds used by the gate-gain invariant. -/

lemma specNormalizedAverage_nonneg (s : List ℕ) :
    0 ≤ specNormalizedAverage s := by
  unfold specNormalizedAverage
  positivity

lemma specThreshold_pos (level : ℚ) (h0 : 0 ≤ level) :
    0 < specThreshold level := by
  unfold specThreshold
  nlinarith

lemma specTargetGain_bounds (level nA : ℚ) (h0 : 0 ≤ level) (h1 : level ≤ 1)
    (hnA : 0 ≤ nA) :
    1/10 ≤ specTargetGain level nA ∧ specTargetGain level nA ≤ 1 := by
  have hthr : 0 < specThreshold level := specThreshold_pos level h0
  unfold specTargetGain
  split
  · refine ⟨le_max_left _ _, max_le (by norm_num) ?_⟩
    have hred : 0 ≤ (specThreshold level - nA) / specThreshold level :=
      div_nonneg (by linarith) (le_of_lt hthr)
    nlinarith
  · norm_num

lemma specSmoothedGain_bounds (g t : ℚ) (hg0 : 0 < g) (hg1 : g ≤ 1)
    (ht0 : 1/10 ≤ t) (ht1 : t ≤ 1) :
    0 < specSmoothedGain g t ∧ specSmoothedGain g t ≤ 1 := by
  unfold specSmoothedGain
  constructor <;> nlinarith

/-- The invariant of §3: the stored noise-reduction level lies in `[0,1]` and
the gate gain, when the gate node exists, lies in `(0,1]`. -/
def GainInv (p : AudioProcessor) : Prop :=
  0 ≤ p.options.noiseReductionLevel ∧ p.options.noiseReductionLevel ≤ 1 ∧
    ∀ g : ℚ, p.noiseGate = some g → 0 < g ∧ g ≤ 1

lemma gainInv_tick (p : AudioProcessor) (s : List ℕ) (h : GainInv p) :
    GainInv (p.processNoiseReduction s) := by
  obtain ⟨h0, h1, hgate⟩ := h
  by_cases hp : p.isProcessing = true
  · by_cases ha : p.analyser = true
    · cases hng : p.noiseGate with
      | none =>
        rw [AudioProcessor.processNoiseReduction_no_gate p s hng]
        exact ⟨h0, h1, hgate⟩
      | some g =>
        rw [AudioProcessor.processNoiseReduction_run_eq p g s hng hp ha]
        refine ⟨h0, h1, ?_⟩
        intro g' hg'
        simp only [Option.some.injEq] at hg'
        obtain ⟨hgl, hgu⟩ := hgate g hng
        have ht := specTargetGain_bounds p.options.noiseReductionLevel
          (specNormalizedAverage s) h0 h1 (specNormalizedAverage_nonneg s)
        have hs := specSmoothedGain_bounds g _ hgl hgu ht.1 ht.2
        rw [← hg']
        exact hs
    · unfold AudioProcessor.processNoiseReduction
      cases hng : p.noiseGate with
      | none => exact ⟨h0, h1, fun g hg => hgate g (hng ▸ hg)⟩
      | some g =>
        simp only [Bool.not_eq_true] at ha
        simp only [ha, Bool.and_false, if_false]
        exact ⟨h0, h1, hgate⟩
  · rw [AudioProcessor.processNoiseReduction_stopped p s
      (by simpa using hp)]
    exact ⟨h0, h1, hgate⟩

lemma gainInv_startNoiseReduction (p : AudioProcessor) (h : GainInv p) :
    GainInv p.startNoiseReduction := by
  unfold AudioProcessor.startNoiseReduction
  split
  · exact ⟨h.1, h.2.1, h.2.2⟩
  · exact h

lemma gainInv_setNoiseReduction (p : AudioProcessor) (b : Bool)
    (h : GainInv p) : GainInv (p.setNoiseReduction b) := by
  obtain ⟨h0, h1, hgate⟩ := h
  unfold AudioProcessor.setNoiseReduction
  dsimp only
  split
  · exact gainInv_startNoiseReduction _ ⟨h0, h1, hgate⟩
  · split
    · refine ⟨h0, h1, ?_⟩
      intro g hg
      simp only [Option.map_eq_some'] at hg
      obtain ⟨a, _, hga⟩ := hg
      rw [← hga]
      norm_num
    · exact ⟨h0, h1, hgate⟩

lemma gainInv_setLevel (p : AudioProcessor) (l : ℚ) (h : GainInv p) :
    GainInv (applyOp p (Op.setLevel l)) := by
  obtain ⟨h0, h1, hgate⟩ := h
  by_cases hrange : l < 0 ∨ l > 1
  · simp only [applyOp, AudioProcessor.setNoiseReductionLevel, if_pos hrange]
    exact ⟨h0, h1, hgate⟩
  · simp only [applyOp, AudioProcessor.setNoiseReductionLevel, if_neg hrange]
    push_neg at hrange
    exact ⟨hrange.1, hrange.2, hgate⟩

lemma gainInv_applyOp (p : AudioProcessor) (op : Op) (h : GainInv p) :
    GainInv (applyOp p op) := by
  obtain ⟨h0, h1, hgate⟩ := h
  cases op with
  | tick s => exact gainInv_tick p s ⟨h0, h1, hgate⟩
  | setNR b => exact gainInv_setNoiseReduction p b ⟨h0, h1, hgate⟩
  | setLevel l => exact gainInv_setLevel p l ⟨h0, h1, hgate⟩
  | setLowPass f => exact ⟨h0, h1, hgate⟩
  | setHighPass f => exact ⟨h0, h1, hgate⟩
  | teardown => exact ⟨h0, h1, hgate⟩

lemma gainInv_run (p : AudioProcessor) (ops : List Op) (h : GainInv p) :
    GainInv (run p ops) := by
  induction ops generalizing p with
  | nil => exact h
  | cons op rest ih => exact ih (applyOp p op) (gainInv_applyOp p op h)

/-! Characterizations of `setNoiseReduction`. -/

namespace AudioProcessor

lemma setNoiseReduction_false_eq (p : AudioProcessor) :
    p.setNoiseReduction false =
      { p with
        options := { p.options with enableNoiseReduction := false }
        isProcessing := false
        noiseGate := p.noiseGate.map (fun _ => 1) } := by
  unfold setNoiseReduction
  simp

lemma setNoiseReduction_true_running (p : AudioProcessor)
    (hp : p.isProcessing = true) :
    p.setNoiseReduction true =
      { p with options := { p.options with enableNoiseReduction := true } } := by
  unfold setNoiseReduction
  simp [hp]

lemma setNoiseReduction_true_start (p : AudioProcessor)
    (hp : p.isProcessing = false) (ha : p.analyser = true)
    (hg : p.noiseGate.isSome = true) :
    p.setNoiseReduction true =
      { p with
        options := { p.options with enableNoiseReduction := true }
        isProcessing := true } := by
  unfold setNoiseReduction startNoiseReduction
  simp [hp, ha, hg]

lemma setNoiseReduction_true_no_analyser (p : AudioProcessor)
    (ha : p.analyser = false) :
    (p.setNoiseReduction true).isProcessing = p.isProcessing := by
  unfold setNoiseReduction startNoiseReduction
  cases hp : p.isProcessing with
  | true => simp only [hp, Bool.not_true, Bool.and_false, if_false]; rfl
  | false =>
    simp only [hp, Bool.not_false, Bool.and_true, if_true, ha, Bool.and_false,
      Bool.false_and, if_false]
    rfl

end AudioProcessor

/-! Scenario of §8: level 0.5, all snapshot bins zero, repeated ticks. -/

/-- An all-zero energy snapshot of the analyser's 1024 frequency bins. -/
def silenceSnapshot : List ℕ := List.replicate 1024 0

/-- A processor constructed with `noiseReductionLevel = 0.5` (noise reduction
enabled by default); the controller starts immediately with gate gain `1.0`. -/
def scenarioStart : AudioProcessor :=
  AudioProcessor.construct { noiseReductionLevel := some (1/2) }

/-- State after `n` silent ticks from `scenarioStart`. -/
def scenarioState : ℕ → AudioProcessor
  | 0 => scenarioStart
  | n + 1 => (scenarioState n).processNoiseReduction silenceSnapshot

/-- Gate gain after `n` silent ticks. -/
def scenarioGain (n : ℕ) : ℚ :=
  ((scenarioState n).noiseGate).getD 0

lemma specNormalizedAverage_silence :
    specNormalizedAverage silenceSnapshot = 0 := by
  unfold specNormalizedAverage silenceSnapshot
  rw [List.sum_replicate, List.length_replicate, smul_eq_mul, Nat.mul_zero]
  norm_num

lemma specThreshold_half : specThreshold (1/2) = 7/200 := by
  unfold specThreshold
  norm_num

lemma specTargetGain_silence : specTargetGain (1/2) 0 = 1/2 := by
  unfold specTargetGain
  rw [specThreshold_half, if_pos (by norm_num)]
  rw [max_eq_right (by norm_num)]
  norm_num

lemma scenarioState_eq (n : ℕ) :
    scenarioState n =
      { options :=
          { enableNoiseReduction := true
            noiseReductionLevel := 1/2
            lowPassFrequency := 8000
            highPassFrequency := 80 }
        noiseLevel := 0
        isProcessing := true
        lowPassFilter := some 8000
        highPassFilter := some 80
        noiseGate := some (1/2 + 1/2 * (7/10) ^ n)
        analyser := true } := by
  induction n with
  | zero =>
    show scenarioStart = _
    unfold scenarioStart AudioProcessor.construct AudioProcessor.startNoiseReduction
    norm_num
  | succ n ih =>
    show (scenarioState n).processNoiseReduction silenceSnapshot = _
    rw [ih, AudioProcessor.processNoiseReduction_run_eq _ (1/2 + 1/2 * (7/10) ^ n)
      silenceSnapshot rfl rfl rfl]
    simp only [specNormalizedAverage_silence]
    rw [specTargetGain_silence]
    unfold specNoiseEMA specSmoothedGain
    simp only [AudioProcessor.mk.injEq, Option.some.injEq, and_true, true_and]
    constructor
    · norm_num
    · rw [pow_succ]
      ring

lemma scenarioGain_eq (n : ℕ) :
    scenarioGain n = 1/2 + 1/2 * (7/10) ^ n := by
  unfold scenarioGain
  rw [scenarioState_eq]
  rfl

/-! Determinism: the gate-gain trace of repeated ticks depends only on the
noise-reduction level, the noise-level estimate, the gate gain, and the
running/analyser flags. -/

/-- Sequence of gate-gain values written by ticking through a list of
snapshots. -/
def gainTrace (p : AudioProcessor) : List (List ℕ) → List (Option ℚ)
  | [] => []
  | s :: rest =>
    (p.processNoiseReduction s).noiseGate ::
      gainTrace (p.processNoiseReduction s) rest

lemma processNoiseReduction_congr (p q : AudioProcessor) (s : List ℕ)
    (hlevel : p.options.noiseReductionLevel = q.options.noiseReductionLevel)
    (hnl : p.noiseLevel = q.noiseLevel)
    (hgate : p.noiseGate = q.noiseGate)
    (hproc : p.isProcessing = q.isProcessing)
    (hana : p.analyser = q.analyser) :
    (p.processNoiseReduction s).options.noiseReductionLevel =
      (q.processNoiseReduction s).options.noiseReductionLevel ∧
    (p.processNoiseReduction s).noiseLevel =
      (q.processNoiseReduction s).noiseLevel ∧
    (p.processNoiseReduction s).noiseGate =
      (q.processNoiseReduction s).noiseGate ∧
    (p.processNoiseReduction s).isProcessing =
      (q.processNoiseReduction s).isProcessing ∧
    (p.processNoiseReduction s).analyser =
      (q.processNoiseReduction s).analyser := by
  unfold AudioProcessor.processNoiseReduction
  rw [← hgate]
  cases hg : p.noiseGate with
  | none => exact ⟨hlevel, hnl, hgate, hproc, hana⟩
  | some g =>
    dsimp only
    rw [hproc, hana]
    split
    · dsimp only
      rw [hlevel, hnl]
      exact ⟨rfl, rfl, rfl, rfl, rfl⟩
    · exact ⟨hlevel, hnl, hgate, hproc, hana⟩

lemma gainTrace_congr (snaps : List (List ℕ)) (p q : AudioProcessor)
    (hlevel : p.options.noiseReductionLevel = q.options.noiseReductionLevel)
    (hnl : p.noiseLevel = q.noiseLevel)
    (hgate : p.noiseGate = q.noiseGate)
    (hproc : p.isProcessing = q.isProcessing)
    (hana : p.analyser = q.analyser) :
    gainTrace p snaps = gainTrace q snaps := by
  induction snaps generalizing p q with
  | nil => rfl
  | cons s rest ih =>
    obtain ⟨h1, h2, h3, h4, h5⟩ :=
      processNoiseReduction_congr p q s hlevel hnl hgate hproc hana
    unfold gainTrace
    rw [ih (p.processNoiseReduction s) (q.processNoiseReduction s) h1 h2 h3 h4 h5,
      h3]

/-- A state of a constructed-enabled processor caught mid-attenuation with
gate gain `0.3`. -/
def midAttenuation : AudioProcessor :=
  { options :=
      { enableNoiseReduction := true
        noiseReductionLevel := 1/2
        lowPassFrequency := 8000
        highPassFrequency := 80 }
    noiseLevel := 1/100
    isProcessing := true
    lowPassFilter := some 8000
    highPassFilter := some 80
    noiseGate := some (3/10)
    analyser := true }

lemma gainInv_construct (opts : AudioProcessorOptions)
    (hopt : ∀ l ∈ opts.noiseReductionLevel, 0 ≤ l ∧ l ≤ 1) :
    GainInv (AudioProcessor.construct opts) := by
  have hlevel : 0 ≤ opts.noiseReductionLevel.getD (1/2) ∧
      opts.noiseReductionLevel.getD (1/2) ≤ 1 := by
    cases hl : opts.noiseReductionLevel with
    | none => norm_num
    | some l => simpa using hopt l (by simp [hl])
  by_cases he : opts.enableNoiseReduction.getD true = true
  · simp only [AudioProcessor.construct, AudioProcessor.startNoiseReduction,
      he, if_true, Option.isSome_some, Bool.and_self]
    refine ⟨hlevel.1, hlevel.2, ?_⟩
    intro g hg
    simp only [Option.some.injEq] at hg
    rw [← hg]
    norm_num
  · simp only [Bool.not_eq_true] at he
    simp only [AudioProcessor.construct, he, if_false]
    exact ⟨hlevel.1, hlevel.2, by intro g hg; simp at hg⟩

lemma foldl_ticks_stopped (q : AudioProcessor) (hq : q.isProcessing = false)
    (snaps : List (List ℕ)) :
    snaps.foldl AudioProcessor.processNoiseReduction q = q := by
  induction snaps with
  | nil => rfl
  | cons s rest ih =>
    rw [List.foldl_cons, AudioProcessor.processNoiseReduction_stopped q s hq]
    exact ih

/-! The claim theorems. -/

/-- C1: every tick of the running Noise Gate Controller, given an energy
snapshot of N unsigned magnitudes each in `[0,255]`, computes
`average = mean(snapshot)`, `normalizedAverage = average/255`, updates
`NoiseLevelEstimate` to `NoiseLevelEstimate*0.9 + normalizedAverage*0.1`,
computes `threshold = 0.01 + noiseReductionLevel*0.05`, sets
`targetGain = max(0.1, 1 - ((threshold - normalizedAverage)/threshold) *
noiseReductionLevel)` when `normalizedAverage < threshold` and `1.0`
otherwise, and writes `GateGain*0.7 + targetGain*0.3` to the gain stage. -/
theorem c1_tick_algorithm (p : AudioProcessor) (g : ℚ) (snapshot : List ℕ)
    (hrun : p.isProcessing = true) (ha : p.analyser = true)
    (hg : p.noiseGate = some g) (hne : snapshot ≠ [])
    (hbins : ∀ x ∈ snapshot, x ≤ 255) :
    p.processNoiseReduction snapshot =
      { p with
        noiseLevel :=
          specNoiseEMA p.noiseLevel (specNormalizedAverage snapshot)
        noiseGate := some (specSmoothedGain g
          (specTargetGain p.options.noiseReductionLevel
            (specNormalizedAverage snapshot))) } :=
  AudioProcessor.processNoiseReduction_run_eq p g snapshot hg hrun ha

theorem c1_tick_algorithm_witness :
    (AudioProcessor.construct {}).processNoiseReduction [0, 102, 255] =
      { AudioProcessor.construct {} with
        noiseLevel := specNoiseEMA (AudioProcessor.construct {}).noiseLevel
          (specNormalizedAverage [0, 102, 255])
        noiseGate := some (specSmoothedGain 1
          (specTargetGain
            (AudioProcessor.construct {}).options.noiseReductionLevel
            (specNormalizedAverage [0, 102, 255]))) } :=
  c1_tick_algorithm (AudioProcessor.construct {}) 1 [0, 102, 255] rfl rfl rfl
    (by decide) (by decide)

/-- C2: for any state whose level is in `[0,1]` and gate gain is in `(0,1]`
(the constructor establishes this for documented option values), the gate
gain stays in `(0,1]` under every interleaving of the public operations with
any snapshot inputs; each tick writes `0.7*GateGain + 0.3*targetGain` with
the target gain in `[0.1,1]`, and disabling noise reduction writes
exactly `1.0`. -/
theorem c2_gate_gain_invariant (opts : AudioProcessorOptions)
    (p : AudioProcessor) (ops : List Op) :
    ((∀ l ∈ opts.noiseReductionLevel, 0 ≤ l ∧ l ≤ 1) →
      GainInv (run (AudioProcessor.construct opts) ops)) ∧
    (GainInv p → GainInv (run p ops)) ∧
    (∀ g : ℚ, p.noiseGate = some g →
      (p.setNoiseReduction false).noiseGate = some 1) ∧
    (∀ level nA : ℚ, 0 ≤ level → level ≤ 1 → 0 ≤ nA →
      1/10 ≤ specTargetGain level nA ∧ specTargetGain level nA ≤ 1) := by
  refine ⟨?_, fun h => gainInv_run p ops h, ?_,
    fun level nA h0 h1 h2 => specTargetGain_bounds level nA h0 h1 h2⟩
  · intro hopt
    exact gainInv_run _ ops (gainInv_construct opts hopt)
  · intro g hg
    rw [AudioProcessor.setNoiseReduction_false_eq]
    simp [hg]

theorem c2_gate_gain_invariant_witness :
    GainInv (run (AudioProcessor.construct {})
      [Op.tick [0, 0, 0], Op.setNR false]) :=
  (c2_gate_gain_invariant {} (AudioProcessor.construct {})
    [Op.tick [0, 0, 0], Op.setNR false]).1 (by simp)

/-- C3: `setNoiseReductionLevel(level)` succeeds for `level ∈ [0,1]` and the
stored level afterwards equals `level` with every other field unchanged; for
`level ∉ [0,1]` it throws synchronously and the state is left completely
unchanged. -/
theorem c3_set_level_contract (p : AudioProcessor) (level : ℚ) :
    (0 ≤ level → level ≤ 1 →
      p.setNoiseReductionLevel level = Except.ok
        { p with options :=
            { p.options with noiseReductionLevel := level } }) ∧
    (level < 0 ∨ 1 < level →
      p.setNoiseReductionLevel level =
        Except.error "noise reduction level must be between 0 and 1" ∧
      applyOp p (Op.setLevel level) = p) := by
  constructor
  · intro h0 h1
    unfold AudioProcessor.setNoiseReductionLevel
    rw [if_neg]
    push_neg
    exact ⟨h0, h1⟩
  · intro h
    have heq : p.setNoiseReductionLevel level =
        Except.error "noise reduction level must be between 0 and 1" := by
      unfold AudioProcessor.setNoiseReductionLevel
      rw [if_pos h]
    refine ⟨heq, ?_⟩
    show (match p.setNoiseReductionLevel level with
      | Except.ok q => q
      | Except.error _ => p) = p
    rw [heq]

theorem c3_set_level_contract_witness :
    (AudioProcessor.construct {}).setNoiseReductionLevel (3/4) = Except.ok
      { AudioProcessor.construct {} with options :=
          { (AudioProcessor.construct {}).options with
            noiseReductionLevel := 3/4 } } ∧
    applyOp (AudioProcessor.construct {}) (Op.setLevel 2) =
      AudioProcessor.construct {} :=
  ⟨(c3_set_level_contract (AudioProcessor.construct {}) (3/4)).1
      (by norm_num) (by norm_num),
   ((c3_set_level_contract (AudioProcessor.construct {}) 2).2
      (by norm_num)).2⟩

/-- C4 counterexample: an `AudioProcessor` constructed with noise reduction
disabled never creates the analyser or the noise gate, so
`setNoiseReduction(true)` hits the guard in `startNoiseReduction` and the
processing state does not become running — refuting the claim for the
explicitly included constructed-disabled case. -/
theorem c4_counterexample :
    (AudioProcessor.construct
      { enableNoiseReduction := some false }).isProcessing = false ∧
    ((AudioProcessor.construct
      { enableNoiseReduction := some false }).setNoiseReduction
        true).isProcessing = false :=
  ⟨rfl, rfl⟩

/-- C4 (amended): `setNoiseReduction(true)` on a non-running processor starts
the tick loop exactly when the analyser and the noise gate exist (i.e. the
instance was constructed with noise reduction enabled); on an instance
without an analyser it records the flag but does not change the processing
state; while already running it changes nothing beyond the recorded flag. -/
theorem c4_amended_enable (p : AudioProcessor) (g : ℚ) :
    (p.analyser = true → p.noiseGate = some g → p.isProcessing = false →
      (p.setNoiseReduction true).isProcessing = true) ∧
    (p.isProcessing = true →
      p.setNoiseReduction true =
        { p with options :=
            { p.options with enableNoiseReduction := true } }) ∧
    (p.analyser = false →
      (p.setNoiseReduction true).isProcessing = p.isProcessing) := by
  refine ⟨?_, ?_, AudioProcessor.setNoiseReduction_true_no_analyser p⟩
  · intro ha hg hp
    rw [AudioProcessor.setNoiseReduction_true_start p hp ha (by rw [hg]; rfl)]
  · intro hp
    exact AudioProcessor.setNoiseReduction_true_running p hp

theorem c4_amended_enable_witness :
    (((AudioProcessor.construct {}).disconnect).setNoiseReduction
      true).isProcessing = true :=
  (c4_amended_enable ((AudioProcessor.construct {}).disconnect) 1).1
    rfl rfl rfl

/-- C5: disabling noise reduction on a running controller immediately writes
gate gain `1.0`, halts processing, and thereafter no tick mutates any state
(in particular `GateGain` and `NoiseLevelEstimate`) until re-enabled. -/
theorem c5_disable_halts (p : AudioProcessor) (g : ℚ)
    (hrun : p.isProcessing = true) (hg : p.noiseGate = some g) :
    ((p.setNoiseReduction false).noiseGate = some 1) ∧
    ((p.setNoiseReduction false).isProcessing = false) ∧
    ∀ snaps : List (List ℕ),
      snaps.foldl AudioProcessor.processNoiseReduction
          (p.setNoiseReduction false) =
        p.setNoiseReduction false := by
  have hstop : (p.setNoiseReduction false).isProcessing = false := by
    rw [AudioProcessor.setNoiseReduction_false_eq]
  refine ⟨?_, hstop, fun snaps => foldl_ticks_stopped _ hstop snaps⟩
  rw [AudioProcessor.setNoiseReduction_false_eq]
  simp [hg]

theorem c5_disable_halts_witness :
    (((AudioProcessor.construct {}).setNoiseReduction false).noiseGate
        = some 1) ∧
    [[0, 7], [255]].foldl AudioProcessor.processNoiseReduction
        ((AudioProcessor.construct {}).setNoiseReduction false) =
      (AudioProcessor.construct {}).setNoiseReduction false :=
  ⟨(c5_disable_halts (AudioProcessor.construct {}) 1 rfl rfl).1,
   (c5_disable_halts (AudioProcessor.construct {}) 1 rfl rfl).2.2
     [[0, 7], [255]]⟩

/-- C6: with level `0.5` and all-zero snapshots from gate gain `1.0`, the
threshold is `0.035`, the normalized average `0` is below threshold every
tick, the target gain is `0.5` every tick, and the gate-gain sequence
strictly decreases, stays above `0.5` (hence never below `0.1`), and
converges to `0.5`. -/
theorem c6_silence_scenario :
    specThreshold (1/2) = 7/200 ∧
    specNormalizedAverage silenceSnapshot = 0 ∧
    specNormalizedAverage silenceSnapshot < specThreshold (1/2) ∧
    specTargetGain (1/2) (specNormalizedAverage silenceSnapshot) = 1/2 ∧
    scenarioGain 0 = 1 ∧
    (∀ n : ℕ, scenarioGain (n + 1) < scenarioGain n) ∧
    (∀ n : ℕ, 1/2 < scenarioGain n) ∧
    (∀ n : ℕ, 1/10 ≤ scenarioGain n) ∧
    (∀ ε : ℚ, 0 < ε →
      ∃ N : ℕ, ∀ n : ℕ, N ≤ n → |scenarioGain n - 1/2| < ε) := by
  have hgt : ∀ n : ℕ, 1/2 < scenarioGain n := by
    intro n
    rw [scenarioGain_eq]
    have := pow_pos (show (0:ℚ) < 7/10 by norm_num) n
    linarith
  refine ⟨specThreshold_half, specNormalizedAverage_silence, ?_, ?_, ?_, ?_,
    hgt, fun n => le_of_lt (lt_trans (by norm_num) (hgt n)), ?_⟩
  · rw [specNormalizedAverage_silence, specThreshold_half]
    norm_num
  · rw [specNormalizedAverage_silence]
    exact specTargetGain_silence
  · rw [scenarioGain_eq]
    norm_num
  · intro n
    rw [scenarioGain_eq, scenarioGain_eq, pow_succ]
    have := pow_pos (show (0:ℚ) < 7/10 by norm_num) n
    nlinarith
  · intro ε hε
    obtain ⟨N, hN⟩ :=
      exists_pow_lt_of_lt_one hε (show (7/10:ℚ) < 1 by norm_num)
    refine ⟨N, fun n hn => ?_⟩
    rw [scenarioGain_eq]
    have h1 : (7/10:ℚ) ^ n ≤ (7/10) ^ N :=
      pow_le_pow_of_le_one (by norm_num) (by norm_num) hn
    have h2 : (0:ℚ) < (7/10) ^ n :=
      pow_pos (by norm_num) n
    have h3 : (1:ℚ)/2 + 1/2 * (7/10) ^ n - 1/2 = 1/2 * (7/10) ^ n := by ring
    rw [h3, abs_of_pos (by positivity)]
    linarith

theorem c6_silence_scenario_witness :
    scenarioGain 1 < scenarioGain 0 ∧
    ∃ N : ℕ, ∀ n : ℕ, N ≤ n → |scenarioGain n - 1/2| < 1/4 :=
  ⟨c6_silence_scenario.2.2.2.2.2.1 0,
   c6_silence_scenario.2.2.2.2.2.2.2.2 (1/4) (by norm_num)⟩

/-- C7: stopping is idempotent — two `setNoiseReduction(false)` in a row
produce the same state as one, with gate gain `1.0` and processing halted —
and `disconnect` is idempotent and safe on any instance. -/
theorem c7_stop_idempotent (p : AudioProcessor) :
    (p.setNoiseReduction false).setNoiseReduction false =
      p.setNoiseReduction false ∧
    ((p.setNoiseReduction false).isProcessing = false) ∧
    (∀ g : ℚ, p.noiseGate = some g →
      (p.setNoiseReduction false).noiseGate = some 1) ∧
    p.disconnect.disconnect = p.disconnect := by
  refine ⟨?_, ?_, ?_, rfl⟩
  · cases hg : p.noiseGate <;>
      simp [AudioProcessor.setNoiseReduction_false_eq, hg]
  · rw [AudioProcessor.setNoiseReduction_false_eq]
  · intro g hg
    rw [AudioProcessor.setNoiseReduction_false_eq]
    simp [hg]

theorem c7_stop_idempotent_witness :
    ((AudioProcessor.construct {}).setNoiseReduction false).setNoiseReduction
        false =
      (AudioProcessor.construct {}).setNoiseReduction false ∧
    ((AudioProcessor.construct {}).setNoiseReduction false).noiseGate =
      some 1 :=
  ⟨(c7_stop_idempotent (AudioProcessor.construct {})).1,
   (c7_stop_idempotent (AudioProcessor.construct {})).2.2.1 1 rfl⟩

/-- C8: the tick loop is deterministic — the gate-gain trace of repeated
ticks is a function of the snapshot sequence, the noise-reduction level, the
initial estimate and gate gain, and the running/analyser flags alone; two
runs agreeing on those produce identical traces. -/
theorem c8_deterministic_trace (p q : AudioProcessor) (snaps : List (List ℕ))
    (hlevel : p.options.noiseReductionLevel = q.options.noiseReductionLevel)
    (hnl : p.noiseLevel = q.noiseLevel)
    (hgate : p.noiseGate = q.noiseGate)
    (hproc : p.isProcessing = q.isProcessing)
    (hana : p.analyser = q.analyser) :
    gainTrace p snaps = gainTrace q snaps :=
  gainTrace_congr snaps p q hlevel hnl hgate hproc hana

theorem c8_deterministic_trace_witness :
    gainTrace (AudioProcessor.construct {}) [[0], [255, 255]] =
      gainTrace ((AudioProcessor.construct {}).setLowPassFrequency 4000)
        [[0], [255, 255]] :=
  c8_deterministic_trace (AudioProcessor.construct {})
    ((AudioProcessor.construct {}).setLowPassFrequency 4000)
    [[0], [255, 255]] rfl rfl rfl rfl rfl

/-- C9: the noise-level estimate is `0` at construction and is not modified
by disabling or enabling noise reduction or by `disconnect` — it carries
over across stop/start cycles on the same instance. -/
theorem c9_estimate_persists (opts : AudioProcessorOptions)
    (p : AudioProcessor) (b : Bool) :
    (AudioProcessor.construct opts).noiseLevel = 0 ∧
    (p.setNoiseReduction b).noiseLevel = p.noiseLevel ∧
    p.disconnect.noiseLevel = p.noiseLevel := by
  refine ⟨?_, ?_, rfl⟩
  · unfold AudioProcessor.construct AudioProcessor.startNoiseReduction
    dsimp only
    split
    · split <;> rfl
    · rfl
  · unfold AudioProcessor.setNoiseReduction AudioProcessor.startNoiseReduction
    dsimp only
    split
    · split <;> rfl
    · split <;> rfl

/-- C10: `disconnect` halts the tick loop but leaves the gate gain at its
last written value — unlike `setNoiseReduction(false)`, which resets it to
`1.0`; a mid-attenuation gain of `0.3` survives teardown. -/
theorem c10_teardown_keeps_gain (p : AudioProcessor) :
    p.disconnect.isProcessing = false ∧
    p.disconnect.noiseGate = p.noiseGate ∧
    midAttenuation.disconnect.noiseGate = some (3/10) ∧
    (midAttenuation.setNoiseReduction false).noiseGate = some 1 := by
  refine ⟨rfl, rfl, rfl, ?_⟩
  rw [AudioProcessor.setNoiseReduction_false_eq]
  rfl

end EarReflect
